import Mathlib

/-!
Verification of the zuno-gas-meter-sensor sketch.  This file shallowly
embeds the parts of the sketch that carry the interesting behaviour:
the wrapping clock utility, the debounce filter in the pulse interrupt
handler, the delta-accumulating reading / pulse counters with EEPROM
persistence, the lazy initialisation / reseeding step, and the wake-up
timer computation.  Machine integers (DWORD / uint32_t) are modelled
as Nat with explicit reduction modulo 2^32 where the C arithmetic can
wrap.  EEPROM cells are carried as explicit state fields, together
with a counter of EEPROM.put invocations so that write-frequency
properties can be stated.  The main sketch is embedded at top level;
the in-memory (non-EEPROM) variant of the same sketch lives in
namespace InMemory, and the older single-counter variant in namespace
V0.
-/

/-- Modulus of 32-bit unsigned arithmetic, 2 ^ 32. -/
def U32 : Nat := 4294967296

/-- Unsigned 32-bit subtraction a minus b, as C computes it on uint32
operands. -/
def sub32 (a b : Nat) : Nat := (a + (U32 - b % U32)) % U32

/-- Embedding of since(then, now) from the main sketch: the raw uint32
difference, with 2^31 subtracted when the difference exceeds 2^31. -/
def since (then_ now : Nat) : Nat :=
  let diff := sub32 now then_
  if diff > 2147483648 then diff - 2147483648 else diff

/-- Global mutable state of the main sketch relevant to the counters:
the RAM copies of the counters and their unpersisted deltas, the
validity flag, the debounce timestamp, the configuration values, the
EEPROM cells at READING_ADDRESS / PULSE_COUNT_ADDRESS /
INIT_COPY_ADDRESS, and a count of EEPROM.put calls performed. -/
structure MeterState where
  reading : Nat
  pulses : Nat
  reading_delta : Nat
  pulses_delta : Nat
  reading_valid : Bool
  last_pulse_millis : Nat
  initial_meter_reading : Nat
  debounce_time : Nat
  pulse_increment : Nat
  ee_reading : Nat
  ee_pulses : Nat
  ee_init_copy : Nat
  ee_writes : Nat
deriving DecidableEq, Repr

/-- Embedding of inc_reading(value): bumps the two deltas (uint32
addition). -/
def inc_reading (s : MeterState) (value : Nat) : MeterState :=
  { s with
    pulses_delta := (s.pulses_delta + 1) % U32
    reading_delta := (s.reading_delta + value) % U32 }

/-- Embedding of the interrupt() handler: reject the pulse when it is
inside the debounce window, otherwise record its time and bump the
deltas by the configured increment.  The argument now is the millis()
value observed by the handler. -/
def interrupt (s : MeterState) (now : Nat) : MeterState :=
  if since s.last_pulse_millis now < s.debounce_time then s
  else inc_reading { s with last_pulse_millis := now } s.pulse_increment

/-- Embedding of init_reading() (EEPROM variant): on a seed-marker
mismatch, zero the pulse base and write the configured initial reading
and the marker to EEPROM (three EEPROM.put calls); then load both
bases from EEPROM, zero the reading delta and mark the state valid.
Note the source zeroes reading_delta only, not pulses_delta. -/
def init_reading (s0 : MeterState) : MeterState :=
  let s :=
    if s0.initial_meter_reading ≠ s0.ee_init_copy then
      { s0 with
        pulses := 0
        ee_reading := s0.initial_meter_reading
        ee_pulses := 0
        ee_init_copy := s0.initial_meter_reading
        ee_writes := s0.ee_writes + 3 }
    else s0
  { s with
    reading := s.ee_reading
    pulses := s.ee_pulses
    reading_delta := 0
    reading_valid := true }

/-- Embedding of get_reading() (EEPROM variant): initialise lazily if
needed, fold a pending delta into the reading with the odometer wrap
at 10^8, persist, and return the reading.  Returns the value together
with the updated state. -/
def get_reading (s0 : MeterState) : Nat × MeterState :=
  let s := if s0.reading_valid then s0 else init_reading s0
  if s.reading_delta ≠ 0 then
    let r0 := (s.reading + s.reading_delta) % U32
    let r := if r0 > 99999999 then r0 - 100000000 else r0
    (r, { s with
          reading := r
          reading_delta := 0
          ee_reading := r
          ee_writes := s.ee_writes + 1 })
  else
    (s.reading, s)

/-- Embedding of get_pulses() (EEPROM variant): initialise lazily if
needed, fold a pending pulse delta into the base, persist, and return
the pulse count. -/
def get_pulses (s0 : MeterState) : Nat × MeterState :=
  let s := if s0.reading_valid then s0 else init_reading s0
  if s.pulses_delta ≠ 0 then
    let p := (s.pulses + s.pulses_delta) % U32
    (p, { s with
          pulses := p
          pulses_delta := 0
          ee_pulses := p
          ee_writes := s.ee_writes + 1 })
  else
    (s.pulses, s)

/-- Embedding of set_wakeup_timer(): seconds to the next report and to
the next state update are computed from the wrapped uint32 millisecond
differences, the sooner is chosen, and it is clamped below at 1.
Returns the argument given to zunoSetCustomWUPTimer. -/
def set_wakeup_timer (next_report_millis next_state_update_millis now : Nat) : Nat :=
  let report_secs := sub32 next_report_millis now / 1000 + 1
  let state_update_secs := sub32 next_state_update_millis now / 1000 + 1
  let secs := if state_update_secs < report_secs then state_update_secs else report_secs
  if secs < 1 then 1 else secs

/-- Folding the interrupt handler over a list of pulse arrival
timestamps, in order. -/
def applyPulses (s : MeterState) (times : List Nat) : MeterState :=
  times.foldl interrupt s

namespace InMemory

/-- Embedding of init_reading() from the in-memory (non-EEPROM)
variant of the main sketch: seeds the reading from the configuration
and zeroes both counters and both deltas. -/
def init_reading (s : MeterState) : MeterState :=
  { s with
    reading := s.initial_meter_reading
    reading_delta := 0
    pulses := 0
    pulses_delta := 0
    reading_valid := true }

/-- Embedding of get_reading() from the in-memory variant of the main
sketch.  The overflow branch subtracts 99999999, not 100000000, as the
source does. -/
def get_reading (s0 : MeterState) : Nat × MeterState :=
  let s := if s0.reading_valid then s0 else init_reading s0
  if s.reading_delta ≠ 0 then
    let r0 := (s.reading + s.reading_delta) % U32
    let r := if r0 > 99999999 then r0 - 99999999 else r0
    (r, { s with reading := r, reading_delta := 0 })
  else
    (s.reading, s)

end InMemory

namespace V0

/-- Embedding of since() from the part_000 variant, as a function of
the remembered moment (then) and the current millis() value (now).
The overflow correction there subtracts 65536. -/
def since (then_ now : Nat) : Nat :=
  let diff := sub32 now then_
  if diff > 65536 then diff - 65536 else diff

/-- State of the part_000 variant: a single reading counter with its
delta, validity flag, the configured initial reading, and the EEPROM
cells at READING_ADDRESS / INIT_COPY_ADDRESS. -/
structure MeterState where
  reading : Nat
  reading_delta : Nat
  reading_valid : Bool
  cfg_initial_meter_reading : Nat
  ee_reading : Nat
  ee_init_copy : Nat
  ee_writes : Nat
deriving DecidableEq, Repr

/-- Embedding of init_reading() from the part_000 variant. -/
def init_reading (s0 : MeterState) : MeterState :=
  let s :=
    if s0.cfg_initial_meter_reading ≠ s0.ee_init_copy then
      { s0 with
        ee_reading := s0.cfg_initial_meter_reading
        ee_init_copy := s0.cfg_initial_meter_reading
        ee_writes := s0.ee_writes + 2 }
    else s0
  { s with
    reading := s.ee_reading
    reading_delta := 0
    reading_valid := true }

/-- Embedding of get_reading() from the part_000 variant: folds the
delta with plain uint32 addition and no odometer wrap. -/
def get_reading (s0 : MeterState) : Nat × MeterState :=
  let s := if s0.reading_valid then s0 else init_reading s0
  if s.reading_delta ≠ 0 then
    let r := (s.reading + s.reading_delta) % U32
    (r, { s with reading := r, reading_delta := 0, ee_reading := r,
                 ee_writes := s.ee_writes + 1 })
  else
    (s.reading, s)

end V0

/-! Helper lemmas about the wrapping clock. -/

theorem sub32_lt (a b : Nat) : sub32 a b < U32 :=
  Nat.mod_lt _ (by decide)

theorem sub32_self (a : Nat) (ha : a < U32) : sub32 a a = 0 := by
  simp only [sub32, U32] at *
  omega

theorem sub32_shift (a d : Nat) (ha : a < U32) :
    sub32 ((a + d) % U32) a = d % U32 := by
  simp only [sub32, U32] at *
  omega

theorem since_self (a : Nat) (ha : a < U32) : since a a = 0 := by
  simp only [since, sub32_self a ha]
  decide

theorem since_shift (a d : Nat) (ha : a < U32) (hd : d < 2147483648) :
    since a ((a + d) % U32) = d := by
  have h : sub32 ((a + d) % U32) a = d := by
    rw [sub32_shift a d ha]
    exact Nat.mod_eq_of_lt (by simp only [U32]; omega)
  simp only [since, h]
  rw [if_neg (by omega)]

/-- C3: for every 32-bit timestamp a and every true interval d with
d < 2^31, since(a, a + d) returns exactly d under unsigned wraparound
arithmetic, including when a + d wraps past 2^32, and since(now, now)
is 0 for every now. -/
theorem elapsed_exact (a d : Nat) (ha : a < U32) (hd : d < 2147483648) :
    since a ((a + d) % U32) = d ∧ since a a = 0 :=
  ⟨since_shift a d ha hd, since_self a ha⟩

theorem elapsed_exact_witness :
    since 4294967290 ((4294967290 + 1006) % U32) = 1006 ∧
    since 4294967290 4294967290 = 0 :=
  elapsed_exact 4294967290 1006 (by decide) (by decide)

/-- C10 (amended): the since function of the main sketch and the since
function of the part_000 variant agree on a pair of timestamps exactly
when the wrapped 32-bit difference now minus then is at most 65536;
for larger differences the two corrections (2^31 versus 65536) make
them disagree. -/
theorem since_variants_agree_iff (then_ now : Nat) :
    since then_ now = V0.since then_ now ↔ sub32 now then_ ≤ 65536 := by
  simp only [since, V0.since]
  split <;> split <;> omega

/-- C10 counterexample: at then = 0, now = 100000 the main sketch
since returns 100000 while the part_000 since returns 34464, so the
two variants are not equivalent. -/
theorem since_variants_cex :
    since 0 100000 = 100000 ∧ V0.since 0 100000 = 34464 ∧
    ¬ since 0 100000 = V0.since 0 100000 := by
  refine ⟨by decide, by decide, by decide⟩

/-- C2 (amended): for a debounce window W with 1 <= W <= 30000, a
last-accepted timestamp t, and a forward offset d with W <= d < 2^31,
a pulse arriving at t + W - 1 (mod 2^32) is rejected leaving the whole
state unchanged, while a pulse arriving at t + d (mod 2^32) is
accepted, sets last_pulse_millis to the arrival timestamp, and bumps
the two deltas.  The restriction d < 2^31 is needed: a pulse more than
2^31 ms after the previous accepted one falls outside the half-range
correction of since and is rejected. -/
theorem debounce_window_correct (s : MeterState) (W t d : Nat)
    (hW1 : 1 ≤ W) (hW2 : W ≤ 30000) (ht : t < U32)
    (hsW : s.debounce_time = W) (hst : s.last_pulse_millis = t)
    (hdlo : W ≤ d) (hdhi : d < 2147483648) :
    interrupt s ((t + (W - 1)) % U32) = s ∧
    (interrupt s ((t + d) % U32)).last_pulse_millis = (t + d) % U32 ∧
    (interrupt s ((t + d) % U32)).pulses_delta = (s.pulses_delta + 1) % U32 ∧
    (interrupt s ((t + d) % U32)).reading_delta
      = (s.reading_delta + s.pulse_increment) % U32 := by
  have h1 : since t ((t + (W - 1)) % U32) = W - 1 :=
    since_shift t (W - 1) ht (by omega)
  have h2 : since t ((t + d) % U32) = d := since_shift t d ht hdhi
  refine ⟨?_, ?_, ?_, ?_⟩
  · simp only [interrupt, hst, hsW, h1]
    rw [if_pos (by omega)]
  all_goals
    simp only [interrupt, hst, hsW, h2, inc_reading]
    rw [if_neg (by omega)]

/-- C2 witness: with the default window W = 5000 and last accepted
pulse at t = 0, a pulse at 4999 is rejected and a pulse at 5000 is
accepted. -/
theorem debounce_window_witness :
    interrupt
      { reading := 0, pulses := 0, reading_delta := 0, pulses_delta := 0,
        reading_valid := true, last_pulse_millis := 0,
        initial_meter_reading := 0, debounce_time := 5000,
        pulse_increment := 1, ee_reading := 0, ee_pulses := 0,
        ee_init_copy := 0, ee_writes := 0 } ((0 + (5000 - 1)) % U32)
      = { reading := 0, pulses := 0, reading_delta := 0, pulses_delta := 0,
          reading_valid := true, last_pulse_millis := 0,
          initial_meter_reading := 0, debounce_time := 5000,
          pulse_increment := 1, ee_reading := 0, ee_pulses := 0,
          ee_init_copy := 0, ee_writes := 0 } ∧
    (interrupt
      { reading := 0, pulses := 0, reading_delta := 0, pulses_delta := 0,
        reading_valid := true, last_pulse_millis := 0,
        initial_meter_reading := 0, debounce_time := 5000,
        pulse_increment := 1, ee_reading := 0, ee_pulses := 0,
        ee_init_copy := 0, ee_writes := 0 } ((0 + 5000) % U32)).last_pulse_millis
      = (0 + 5000) % U32 ∧
    (interrupt
      { reading := 0, pulses := 0, reading_delta := 0, pulses_delta := 0,
        reading_valid := true, last_pulse_millis := 0,
        initial_meter_reading := 0, debounce_time := 5000,
        pulse_increment := 1, ee_reading := 0, ee_pulses := 0,
        ee_init_copy := 0, ee_writes := 0 } ((0 + 5000) % U32)).pulses_delta
      = (0 + 1) % U32 ∧
    (interrupt
      { reading := 0, pulses := 0, reading_delta := 0, pulses_delta := 0,
        reading_valid := true, last_pulse_millis := 0,
        initial_meter_reading := 0, debounce_time := 5000,
        pulse_increment := 1, ee_reading := 0, ee_pulses := 0,
        ee_init_copy := 0, ee_writes := 0 } ((0 + 5000) % U32)).reading_delta
      = (0 + 1) % U32 :=
  debounce_window_correct _ 5000 0 5000 (by decide) (by decide) (by decide)
    rfl rfl (by decide) (by decide)

/-- Meter state used for the C2 counterexample: last accepted pulse at
t = 0 with the default 5000 ms window. -/
def debounceCexState : MeterState :=
  { reading := 0, pulses := 0, reading_delta := 0, pulses_delta := 0,
    reading_valid := true, last_pulse_millis := 0,
    initial_meter_reading := 0, debounce_time := 5000, pulse_increment := 1,
    ee_reading := 0, ee_pulses := 0, ee_init_copy := 0, ee_writes := 0 }

/-- C2 counterexample: with W = 5000 and the last accepted pulse at
t = 0, a pulse arriving at t + 2147483649 is at t + W or later, yet
the interrupt handler rejects it and leaves the state unchanged,
because the wrapped difference exceeds 2^31 and since folds it to 1. -/
theorem debounce_late_pulse_cex :
    0 + 5000 ≤ 2147483649 ∧
    interrupt debounceCexState ((0 + 2147483649) % U32) = debounceCexState ∧
    since debounceCexState.last_pulse_millis ((0 + 2147483649) % U32) = 1 := by
  refine ⟨by decide, by decide, by decide⟩

/-- Boot-time state of the debounce filter: last_pulse_millis carries
its initialiser 1 << 31 and the debounce window its default 5000 ms. -/
def bootState : MeterState :=
  { reading := 0, pulses := 0, reading_delta := 0, pulses_delta := 0,
    reading_valid := true, last_pulse_millis := 2147483648,
    initial_meter_reading := 0, debounce_time := 5000, pulse_increment := 1,
    ee_reading := 0, ee_pulses := 0, ee_init_copy := 0, ee_writes := 0 }

/-- C8: the first pulse after boot is NOT always accepted.  With
last_pulse_millis initialised to 1 << 31 and the default 5000 ms
window, a first pulse arriving 100 ms after boot sees since fold the
difference to 100 < 5000 and is rejected, contradicting the source
comment that the initialiser makes the next pulse count. -/
theorem first_pulse_after_boot_rejected :
    since bootState.last_pulse_millis 100 = 100 ∧
    since bootState.last_pulse_millis 100 < bootState.debounce_time ∧
    interrupt bootState 100 = bootState ∧
    (interrupt bootState 100).pulses_delta = 0 := by
  refine ⟨by decide, by decide, by decide, by decide⟩

/-- C9: the wake duration computed by set_wakeup_timer equals the
minimum over the two tracked deadlines of the wrapped
milliseconds-to-deadline divided by 1000 plus one, is never below one
second, and exceeds the sooner wrapped distance when multiplied back
into milliseconds, so the wake fires strictly after the due instant. -/
theorem wakeup_timer_soonest_clamped_slack
    (next_report_millis next_state_update_millis now : Nat) :
    1 ≤ set_wakeup_timer next_report_millis next_state_update_millis now ∧
    set_wakeup_timer next_report_millis next_state_update_millis now
      = min (sub32 next_report_millis now / 1000 + 1)
          (sub32 next_state_update_millis now / 1000 + 1) ∧
    1000 * set_wakeup_timer next_report_millis next_state_update_millis now
      > min (sub32 next_report_millis now) (sub32 next_state_update_millis now) := by
  simp only [set_wakeup_timer]
  split <;> split <;> omega

/-- C5: whenever the configured initial reading differs from the
stored seed marker, init_reading produces a reading base equal to the
newly configured value and a pulse base of zero, durably writes both
bases and the updated marker, and marks the state valid, regardless of
the prior accumulated state. -/
theorem reseed_on_marker_mismatch (s : MeterState)
    (h : s.initial_meter_reading ≠ s.ee_init_copy) :
    (init_reading s).reading = s.initial_meter_reading ∧
    (init_reading s).pulses = 0 ∧
    (init_reading s).ee_reading = s.initial_meter_reading ∧
    (init_reading s).ee_pulses = 0 ∧
    (init_reading s).ee_init_copy = s.initial_meter_reading ∧
    (init_reading s).reading_valid = true := by
  simp [init_reading, h]

/-- C5 witness: a state that accumulated base 12345 and 77 pulses is
reseeded to reading 42 and pulse count 0 when the configured value 42
differs from the stored marker 7. -/
theorem reseed_on_marker_mismatch_witness :
    (init_reading
      { reading := 12345, pulses := 77, reading_delta := 5, pulses_delta := 4,
        reading_valid := false, last_pulse_millis := 0,
        initial_meter_reading := 42, debounce_time := 5000,
        pulse_increment := 1, ee_reading := 12345, ee_pulses := 77,
        ee_init_copy := 7, ee_writes := 0 }).reading
      = MeterState.initial_meter_reading
          { reading := 12345, pulses := 77, reading_delta := 5, pulses_delta := 4,
            reading_valid := false, last_pulse_millis := 0,
            initial_meter_reading := 42, debounce_time := 5000,
            pulse_increment := 1, ee_reading := 12345, ee_pulses := 77,
            ee_init_copy := 7, ee_writes := 0 } ∧
    (init_reading
      { reading := 12345, pulses := 77, reading_delta := 5, pulses_delta := 4,
        reading_valid := false, last_pulse_millis := 0,
        initial_meter_reading := 42, debounce_time := 5000,
        pulse_increment := 1, ee_reading := 12345, ee_pulses := 77,
        ee_init_copy := 7, ee_writes := 0 }).pulses = 0 ∧
    (init_reading
      { reading := 12345, pulses := 77, reading_delta := 5, pulses_delta := 4,
        reading_valid := false, last_pulse_millis := 0,
        initial_meter_reading := 42, debounce_time := 5000,
        pulse_increment := 1, ee_reading := 12345, ee_pulses := 77,
        ee_init_copy := 7, ee_writes := 0 }).ee_reading
      = MeterState.initial_meter_reading
          { reading := 12345, pulses := 77, reading_delta := 5, pulses_delta := 4,
            reading_valid := false, last_pulse_millis := 0,
            initial_meter_reading := 42, debounce_time := 5000,
            pulse_increment := 1, ee_reading := 12345, ee_pulses := 77,
            ee_init_copy := 7, ee_writes := 0 } ∧
    (init_reading
      { reading := 12345, pulses := 77, reading_delta := 5, pulses_delta := 4,
        reading_valid := false, last_pulse_millis := 0,
        initial_meter_reading := 42, debounce_time := 5000,
        pulse_increment := 1, ee_reading := 12345, ee_pulses := 77,
        ee_init_copy := 7, ee_writes := 0 }).ee_pulses = 0 ∧
    (init_reading
      { reading := 12345, pulses := 77, reading_delta := 5, pulses_delta := 4,
        reading_valid := false, last_pulse_millis := 0,
        initial_meter_reading := 42, debounce_time := 5000,
        pulse_increment := 1, ee_reading := 12345, ee_pulses := 77,
        ee_init_copy := 7, ee_writes := 0 }).ee_init_copy
      = MeterState.initial_meter_reading
          { reading := 12345, pulses := 77, reading_delta := 5, pulses_delta := 4,
            reading_valid := false, last_pulse_millis := 0,
            initial_meter_reading := 42, debounce_time := 5000,
            pulse_increment := 1, ee_reading := 12345, ee_pulses := 77,
            ee_init_copy := 7, ee_writes := 0 } ∧
    (init_reading
      { reading := 12345, pulses := 77, reading_delta := 5, pulses_delta := 4,
        reading_valid := false, last_pulse_millis := 0,
        initial_meter_reading := 42, debounce_time := 5000,
        pulse_increment := 1, ee_reading := 12345, ee_pulses := 77,
        ee_init_copy := 7, ee_writes := 0 }).reading_valid = true :=
  reseed_on_marker_mismatch _ (by decide)

/-- Main-sketch state at the odometer boundary: reading base 99999999
with a pending delta of 1. -/
def overflowState : MeterState :=
  { reading := 99999999, pulses := 0, reading_delta := 1, pulses_delta := 0,
    reading_valid := true, last_pulse_millis := 0,
    initial_meter_reading := 0, debounce_time := 5000, pulse_increment := 1,
    ee_reading := 99999999, ee_pulses := 0, ee_init_copy := 0, ee_writes := 0 }

/-- Part_000 state at the same odometer boundary. -/
def overflowStateV0 : V0.MeterState :=
  { reading := 99999999, reading_delta := 1, reading_valid := true,
    cfg_initial_meter_reading := 0, ee_reading := 99999999,
    ee_init_copy := 0, ee_writes := 0 }

/-- C4: at a reading base of 99999999 plus an increment of 1, the
EEPROM variant of the main sketch wraps to 0 as claimed, but the
in-memory variant returns 1 (it subtracts 99999999 instead of the
modulus 100000000, contradicting its own odometer comment) and the
part_000 variant returns 100000000 (no wrap at all), so the claimed
wrap does not hold in every variant of get_reading. -/
theorem overflow_variants_eval :
    (get_reading overflowState).1 = 0 ∧
    (InMemory.get_reading overflowState).1 = 1 ∧
    (V0.get_reading overflowStateV0).1 = 100000000 := by
  refine ⟨by decide, by decide, by decide⟩

/-- State about to be lazily re-initialised while three pulses are
still pending in the deltas. -/
def staleDeltaState : MeterState :=
  { reading := 10, pulses := 7, reading_delta := 2, pulses_delta := 3,
    reading_valid := false, last_pulse_millis := 0,
    initial_meter_reading := 42, debounce_time := 5000, pulse_increment := 1,
    ee_reading := 10, ee_pulses := 7, ee_init_copy := 0, ee_writes := 0 }

/-- C7: init_reading zeroes the reading delta but NOT the pulse-count
delta.  From a state with pulses_delta = 3, a reseeding init_reading
leaves pulses_delta = 3 while setting the pulse base to 0, and a
subsequent get_pulses folds the stale delta into the fresh base and
returns 3, which the claim rules out.  The in-memory variant of the
same function zeroes both deltas. -/
theorem init_keeps_pulses_delta :
    (init_reading staleDeltaState).reading_delta = 0 ∧
    (init_reading staleDeltaState).pulses_delta = 3 ∧
    (init_reading staleDeltaState).pulses = 0 ∧
    (get_pulses (init_reading staleDeltaState)).1 = 3 ∧
    (InMemory.init_reading staleDeltaState).pulses_delta = 0 := by
  refine ⟨by decide, by decide, by decide, by decide, by decide⟩

/-- C6 (amended): for every already-initialised state (reading_valid
set), calling get_reading twice returns the same value both times, the
second call performs no EEPROM write, and at most one write happens
across the two calls; likewise for get_pulses.  The claim as stated
over every state fails, because a first call on a not-yet-initialised
state may perform up to three reseeding writes. -/
theorem read_idempotent_writes (s : MeterState) (h : s.reading_valid = true) :
    (get_reading ((get_reading s).2)).1 = (get_reading s).1 ∧
    ((get_reading ((get_reading s).2)).2).ee_writes
      = ((get_reading s).2).ee_writes ∧
    ((get_reading s).2).ee_writes ≤ s.ee_writes + 1 ∧
    (get_pulses ((get_pulses s).2)).1 = (get_pulses s).1 ∧
    ((get_pulses ((get_pulses s).2)).2).ee_writes
      = ((get_pulses s).2).ee_writes ∧
    ((get_pulses s).2).ee_writes ≤ s.ee_writes + 1 := by
  by_cases hr : s.reading_delta = 0 <;> by_cases hp : s.pulses_delta = 0 <;>
    simp [get_reading, get_pulses, h, hr, hp]

/-- C6 witness: an initialised state with pending deltas 5 and 2 and
no writes so far reads the same value twice with a single write per
counter. -/
theorem read_idempotent_witness :
    (get_reading ((get_reading
      { reading := 10, pulses := 3, reading_delta := 5, pulses_delta := 2,
        reading_valid := true, last_pulse_millis := 0,
        initial_meter_reading := 0, debounce_time := 5000,
        pulse_increment := 1, ee_reading := 10, ee_pulses := 3,
        ee_init_copy := 0, ee_writes := 0 }).2)).1
      = (get_reading
      { reading := 10, pulses := 3, reading_delta := 5, pulses_delta := 2,
        reading_valid := true, last_pulse_millis := 0,
        initial_meter_reading := 0, debounce_time := 5000,
        pulse_increment := 1, ee_reading := 10, ee_pulses := 3,
        ee_init_copy := 0, ee_writes := 0 }).1 ∧
    ((get_reading ((get_reading
      { reading := 10, pulses := 3, reading_delta := 5, pulses_delta := 2,
        reading_valid := true, last_pulse_millis := 0,
        initial_meter_reading := 0, debounce_time := 5000,
        pulse_increment := 1, ee_reading := 10, ee_pulses := 3,
        ee_init_copy := 0, ee_writes := 0 }).2)).2).ee_writes
      = ((get_reading
      { reading := 10, pulses := 3, reading_delta := 5, pulses_delta := 2,
        reading_valid := true, last_pulse_millis := 0,
        initial_meter_reading := 0, debounce_time := 5000,
        pulse_increment := 1, ee_reading := 10, ee_pulses := 3,
        ee_init_copy := 0, ee_writes := 0 }).2).ee_writes ∧
    ((get_reading
      { reading := 10, pulses := 3, reading_delta := 5, pulses_delta := 2,
        reading_valid := true, last_pulse_millis := 0,
        initial_meter_reading := 0, debounce_time := 5000,
        pulse_increment := 1, ee_reading := 10, ee_pulses := 3,
        ee_init_copy := 0, ee_writes := 0 }).2).ee_writes
      ≤ MeterState.ee_writes
      { reading := 10, pulses := 3, reading_delta := 5, pulses_delta := 2,
        reading_valid := true, last_pulse_millis := 0,
        initial_meter_reading := 0, debounce_time := 5000,
        pulse_increment := 1, ee_reading := 10, ee_pulses := 3,
        ee_init_copy := 0, ee_writes := 0 } + 1 ∧
    (get_pulses ((get_pulses
      { reading := 10, pulses := 3, reading_delta := 5, pulses_delta := 2,
        reading_valid := true, last_pulse_millis := 0,
        initial_meter_reading := 0, debounce_time := 5000,
        pulse_increment := 1, ee_reading := 10, ee_pulses := 3,
        ee_init_copy := 0, ee_writes := 0 }).2)).1
      = (get_pulses
      { reading := 10, pulses := 3, reading_delta := 5, pulses_delta := 2,
        reading_valid := true, last_pulse_millis := 0,
        initial_meter_reading := 0, debounce_time := 5000,
        pulse_increment := 1, ee_reading := 10, ee_pulses := 3,
        ee_init_copy := 0, ee_writes := 0 }).1 ∧
    ((get_pulses ((get_pulses
      { reading := 10, pulses := 3, reading_delta := 5, pulses_delta := 2,
        reading_valid := true, last_pulse_millis := 0,
        initial_meter_reading := 0, debounce_time := 5000,
        pulse_increment := 1, ee_reading := 10, ee_pulses := 3,
        ee_init_copy := 0, ee_writes := 0 }).2)).2).ee_writes
      = ((get_pulses
      { reading := 10, pulses := 3, reading_delta := 5, pulses_delta := 2,
        reading_valid := true, last_pulse_millis := 0,
        initial_meter_reading := 0, debounce_time := 5000,
        pulse_increment := 1, ee_reading := 10, ee_pulses := 3,
        ee_init_copy := 0, ee_writes := 0 }).2).ee_writes ∧
    ((get_pulses
      { reading := 10, pulses := 3, reading_delta := 5, pulses_delta := 2,
        reading_valid := true, last_pulse_millis := 0,
        initial_meter_reading := 0, debounce_time := 5000,
        pulse_increment := 1, ee_reading := 10, ee_pulses := 3,
        ee_init_copy := 0, ee_writes := 0 }).2).ee_writes
      ≤ MeterState.ee_writes
      { reading := 10, pulses := 3, reading_delta := 5, pulses_delta := 2,
        reading_valid := true, last_pulse_millis := 0,
        initial_meter_reading := 0, debounce_time := 5000,
        pulse_increment := 1, ee_reading := 10, ee_pulses := 3,
        ee_init_copy := 0, ee_writes := 0 } + 1 :=
  read_idempotent_writes _ rfl

/-- State whose lazy initialisation will detect a seed-marker mismatch
on the first read. -/
def uninitState : MeterState :=
  { reading := 0, pulses := 0, reading_delta := 0, pulses_delta := 0,
    reading_valid := false, last_pulse_millis := 0,
    initial_meter_reading := 5, debounce_time := 5000, pulse_increment := 1,
    ee_reading := 0, ee_pulses := 0, ee_init_copy := 0, ee_writes := 0 }

/-- C6 counterexample: on a not-yet-initialised state whose seed
marker mismatches, two successive get_reading calls perform three
EEPROM writes (all in the reseeding first call), not at most one. -/
theorem read_twice_writes_cex :
    ((get_reading ((get_reading uninitState).2)).2).ee_writes = 3 ∧
    ¬ ((get_reading ((get_reading uninitState).2)).2).ee_writes
        ≤ uninitState.ee_writes + 1 := by
  refine ⟨by decide, by decide⟩

theorem applyPulses_chain (times : List Nat) (s : MeterState)
    (hpd : s.pulses_delta < U32) (hrd : s.reading_delta < U32)
    (h : List.Chain' (fun a b => s.debounce_time ≤ since a b)
          (s.last_pulse_millis :: times)) :
    (applyPulses s times).pulses_delta = (s.pulses_delta + times.length) % U32 ∧
    (applyPulses s times).reading_delta
        = (s.reading_delta + times.length * s.pulse_increment) % U32 ∧
    (applyPulses s times).reading = s.reading ∧
    (applyPulses s times).pulses = s.pulses ∧
    (applyPulses s times).reading_valid = s.reading_valid := by
  induction times generalizing s with
  | nil =>
      refine ⟨?_, ?_, rfl, rfl, rfl⟩ <;>
        simp [applyPulses, Nat.mod_eq_of_lt hpd, Nat.mod_eq_of_lt hrd]
  | cons t rest ih =>
      rw [List.chain'_cons] at h
      obtain ⟨hacc, hrest⟩ := h
      have hstep : applyPulses s (t :: rest)
          = applyPulses
              (inc_reading { s with last_pulse_millis := t } s.pulse_increment)
              rest := by
        simp only [applyPulses, List.foldl_cons, interrupt]
        rw [if_neg (by omega)]
      obtain ⟨h1, h2, h3, h4, h5⟩ :=
        ih (inc_reading { s with last_pulse_millis := t } s.pulse_increment)
          (Nat.mod_lt _ (by decide)) (Nat.mod_lt _ (by decide)) hrest
      rw [hstep]
      refine ⟨?_, ?_, ?_, ?_, ?_⟩
      · rw [h1]
        simp only [inc_reading, List.length_cons]
        rw [Nat.mod_add_mod]
        congr 1
        omega
      · rw [h2]
        simp only [inc_reading, List.length_cons]
        rw [Nat.mod_add_mod]
        congr 1
        ring
      · rw [h3]
        simp [inc_reading]
      · rw [h4]
        simp [inc_reading]
      · rw [h5]
        simp [inc_reading]

/-- C1 (amended): starting from bases of zero with no pending deltas,
a sequence of pulses each at least the debounce window after the
previous accepted one is entirely accepted; provided the accumulated
total N * k stays below 2 * 10^8 (so that the single conditional
subtraction in get_reading implements the modulus), get_reading then
returns N * k mod 10^8 and get_pulses returns N.  Each accepted pulse
adds exactly 1 to the pulse-count delta and exactly k to the reading
delta (uint32 addition).  Without the N * k < 2 * 10^8 restriction the
claim fails, since the overflow branch subtracts 10^8 only once. -/
theorem accumulation_mod (k W : Nat) (times : List Nat) (s s2 : MeterState)
    (hk : 1 ≤ k) (hNk : times.length * k < 200000000)
    (hr : s.reading = 0) (hp : s.pulses = 0)
    (hrd : s.reading_delta = 0) (hpd : s.pulses_delta = 0)
    (hv : s.reading_valid = true)
    (hki : s.pulse_increment = k) (hW : s.debounce_time = W)
    (hchain : List.Chain' (fun a b => W ≤ since a b)
        (s.last_pulse_millis :: times)) :
    (get_reading (applyPulses s times)).1 = times.length * k % 100000000 ∧
    (get_pulses (applyPulses s times)).1 = times.length ∧
    (inc_reading s2 k).pulses_delta = (s2.pulses_delta + 1) % U32 ∧
    (inc_reading s2 k).reading_delta = (s2.reading_delta + k) % U32 := by
  subst hki hW
  have hNle : times.length ≤ times.length * s.pulse_increment :=
    Nat.le_mul_of_pos_right _ hk
  have hNU : times.length < U32 := by simp only [U32]; omega
  have hNkU : times.length * s.pulse_increment < U32 := by
    simp only [U32]; omega
  obtain ⟨h1, h2, h3, h4, h5⟩ :=
    applyPulses_chain times s (by rw [hpd]; decide) (by rw [hrd]; decide)
      hchain
  rw [hpd, Nat.zero_add, Nat.mod_eq_of_lt hNU] at h1
  rw [hrd, Nat.zero_add, Nat.mod_eq_of_lt hNkU] at h2
  rw [hr] at h3
  rw [hp] at h4
  rw [hv] at h5
  refine ⟨?_, ?_, rfl, rfl⟩
  · by_cases hN : times.length = 0
    · rw [hN] at h1 h2 ⊢
      simp only [Nat.zero_mul] at h2 ⊢
      simp [get_reading, h5, h2, h3]
    · have hne : times.length * s.pulse_increment ≠ 0 :=
        Nat.mul_ne_zero hN (by omega)
      simp only [get_reading, h5, if_true, h2, h3, Nat.zero_add]
      rw [if_pos hne]
      simp only [Nat.mod_eq_of_lt hNkU]
      split <;> omega
  · by_cases hN : times.length = 0
    · rw [hN] at h1 ⊢
      simp [get_pulses, h5, h1, h4]
    · simp only [get_pulses, h5, if_true, h1, h4, Nat.zero_add]
      rw [if_pos hN]
      simp [Nat.mod_eq_of_lt hNU]

/-- Freshly seeded state at base zero used to exercise the
accumulation property: default 5000 ms window, increment 1, boot value
of last_pulse_millis. -/
def accumWitnessState : MeterState :=
  { reading := 0, pulses := 0, reading_delta := 0, pulses_delta := 0,
    reading_valid := true, last_pulse_millis := 2147483648,
    initial_meter_reading := 0, debounce_time := 5000, pulse_increment := 1,
    ee_reading := 0, ee_pulses := 0, ee_init_copy := 0, ee_writes := 0 }

/-- C1 witness: two pulses at 0 and 6000 ms, 5000 ms window, increment
1: the reading reads 2 mod 10^8 and the pulse count reads 2. -/
theorem accumulation_mod_witness :
    (get_reading (applyPulses accumWitnessState [0, 6000])).1
      = [0, 6000].length * 1 % 100000000 ∧
    (get_pulses (applyPulses accumWitnessState [0, 6000])).1
      = [0, 6000].length ∧
    (inc_reading accumWitnessState 1).pulses_delta
      = (accumWitnessState.pulses_delta + 1) % U32 ∧
    (inc_reading accumWitnessState 1).reading_delta
      = (accumWitnessState.reading_delta + 1) % U32 :=
  accumulation_mod 1 5000 [0, 6000] accumWitnessState accumWitnessState
    (by decide) (by decide) rfl rfl rfl rfl rfl rfl rfl
    (List.Chain.cons (by decide) (List.Chain.cons (by decide) List.Chain.nil))

/-- Base-zero state with a zero debounce window and the maximal
declared per-pulse increment of 1000000, used to refute the unbounded
accumulation claim. -/
def accumCexState : MeterState :=
  { reading := 0, pulses := 0, reading_delta := 0, pulses_delta := 0,
    reading_valid := true, last_pulse_millis := 2147483648,
    initial_meter_reading := 0, debounce_time := 0,
    pulse_increment := 1000000,
    ee_reading := 0, ee_pulses := 0, ee_init_copy := 0, ee_writes := 0 }

/-- C1 counterexample: with window W = 0 and increment k = 1000000,
200 pulses at 0,1,...,199 are all accepted (the pulse delta reaches
200), yet get_reading returns 100000000 rather than
200 * 1000000 mod 10^8 = 0, because the overflow branch subtracts the
modulus only once. -/
theorem chain'_of_total {R : Nat → Nat → Prop} (h : ∀ a b, R a b) :
    ∀ l : List Nat, List.Chain' R l := by
  intro l
  induction l with
  | nil => exact trivial
  | cons x xs ih =>
      cases xs with
      | nil => exact List.Chain.nil
      | cons y ys =>
          rw [List.chain'_cons]
          exact ⟨h x y, ih⟩

theorem accumulation_mod_cex :
    (applyPulses accumCexState (List.range 200)).pulses_delta = 200 ∧
    200 * 1000000 % 100000000 = 0 ∧
    (get_reading (applyPulses accumCexState (List.range 200))).1
      = 100000000 := by
  obtain ⟨h1, h2, h3, h4, h5⟩ :=
    applyPulses_chain (List.range 200) accumCexState (by decide) (by decide)
      (chain'_of_total (fun a b => Nat.zero_le _) _)
  have h1' : (applyPulses accumCexState (List.range 200)).pulses_delta
      = 200 := by
    rw [h1, List.length_range]; decide
  have h2' : (applyPulses accumCexState (List.range 200)).reading_delta
      = 200000000 := by
    rw [h2, List.length_range]; decide
  have h3' : (applyPulses accumCexState (List.range 200)).reading = 0 := h3
  have h5' : (applyPulses accumCexState (List.range 200)).reading_valid
      = true := h5
  refine ⟨h1', by decide, ?_⟩
  simp only [get_reading, h5', if_true, h2', h3']
  rw [if_pos (by decide : (200000000 : Nat) ≠ 0)]
  decide
